import Mathlib

/-!
Verification of the maptoposter rendering and paper-export pipeline.

Shallow embedding of `src/maptoposter/__init__.py`: the paper geometry
engine, theme resolver, road classifier, caption layer, fetch pipeline
and PDF exporter are translated into executable Lean definitions, and
the spec's testable properties are proved about them.

Conventions: Python floats that hold exact decimal quantities (paper
sizes in mm, stroke widths, normalized canvas coordinates) are modelled
as rationals; byte streams as `List Nat`; Python dictionaries used as
partial maps as functions into `Option`; raised exceptions as `Except`
or `Option` results.
-/

namespace MapToPoster

/-! ### Paper geometry engine -/

/-- `PAPER_SIZES`: paper sizes in mm (width, height) for portrait
orientation, as a partial map from the size name. -/
def PAPER_SIZES : String → Option (ℚ × ℚ) := fun name =>
  if name = "A3" then some (297, 420)
  else if name = "A4" then some (210, 297)
  else if name = "A5" then some (148, 210)
  else none

/-- `BLEED_MM`: bleed for print-ready PDFs in mm. -/
def BLEED_MM : ℚ := 3

/-- The page-dimension computation of `export_pdf` (lines 586-599):
look up the base size with A4 as fallback, swap for landscape, collapse
to the minimum for square, and add twice the bleed on each axis when
print-ready.  The module constant `BLEED_MM` is abstracted into the
`bleed` argument; `export_pdf` instantiates it with `BLEED_MM`. -/
def resolve_dimensions (paper_size o : String) (bleed : ℚ)
    (print_ready : Bool) : ℚ × ℚ :=
  let wh := (PAPER_SIZES paper_size).getD (210, 297)
  let wh :=
    if o = "landscape" then (wh.2, wh.1)
    else if o = "square" then (min wh.1 wh.2, min wh.1 wh.2)
    else wh
  if print_ready then (wh.1 + 2 * bleed, wh.2 + 2 * bleed) else wh

/-- `get_aspect_ratio` (lines 30-49): width/height after the
orientation adjustment, with unknown paper names falling back to A4. -/
def get_aspect_ratio (paper_size o : String) : ℚ :=
  let wh := (PAPER_SIZES paper_size).getD (210, 297)
  let wh :=
    if o = "landscape" then (wh.2, wh.1)
    else if o = "square" then (min wh.1 wh.2, min wh.1 wh.2)
    else wh
  wh.1 / wh.2

/-- Modelled from the spec: `resolve_dimensions` as §4.5 words it —
"look up base (width,height) for paper_name (default to A4 on unknown
name); swap for landscape; collapse to (min(w,h), min(w,h)) for square;
if print_ready, add 2×bleed_mm to each axis".  Used only to compare
against the code-side `resolve_dimensions`. -/
def resolve_dimensions_spec (paper_size o : String) (bleed : ℚ)
    (print_ready : Bool) : ℚ × ℚ :=
  let base := (PAPER_SIZES paper_size).getD (210, 297)
  let oriented :=
    if o = "landscape" then (base.2, base.1)
    else if o = "square" then (min base.1 base.2, min base.1 base.2)
    else base
  if print_ready then (oriented.1 + 2 * bleed, oriented.2 + 2 * bleed)
  else oriented

/-! ### Theme resolver -/

/-- A theme dictionary: a partial map from role names to color/string
values (Python `dict[str, Any]` restricted to its string values, which
is all the pipeline reads). -/
abbrev ThemeDict : Type := String → Option String

/-- `DEFAULT_THEME` (lines 52-66): the built-in fallback theme. -/
def DEFAULT_THEME : ThemeDict := fun role =>
  if role = "name" then some "feature_based"
  else if role = "description" then
    some "Classic black & white with road hierarchy"
  else if role = "bg" then some "#FFFFFF"
  else if role = "text" then some "#000000"
  else if role = "gradient_color" then some "#FFFFFF"
  else if role = "water" then some "#C0C0C0"
  else if role = "parks" then some "#F0F0F0"
  else if role = "road_motorway" then some "#0A0A0A"
  else if role = "road_primary" then some "#1A1A1A"
  else if role = "road_secondary" then some "#2A2A2A"
  else if role = "road_tertiary" then some "#3A3A3A"
  else if role = "road_residential" then some "#4A4A4A"
  else if role = "road_default" then some "#3A3A3A"
  else none

/-- The keys of `DEFAULT_THEME`. -/
def default_theme_roles : List String :=
  ["name", "description", "bg", "text", "gradient_color", "water",
   "parks", "road_motorway", "road_primary", "road_secondary",
   "road_tertiary", "road_residential", "road_default"]

/-- The theme store: the contents of the `themes/` directory, as a
partial map from theme name to the parsed JSON dictionary.  `load_theme`
does file I/O only to perform this lookup, so the directory state is
passed explicitly. -/
abbrev ThemeStore : Type := String → Option ThemeDict

/-- `load_theme` (lines 74-85): if the theme file exists, merge the
parsed dictionary over `DEFAULT_THEME` (Python
`\x7b**DEFAULT_THEME, **theme\x7d`: keys present in the stored theme
override, all other keys keep the default value); otherwise return a
copy of `DEFAULT_THEME`. -/
def load_theme (store : ThemeStore) (theme_name : String) : ThemeDict :=
  match store theme_name with
  | some theme => fun role =>
      match theme role with
      | some v => some v
      | none => DEFAULT_THEME role
  | none => DEFAULT_THEME

/-! ### Geometry classifier -/

/-- An OSM tag value: either a single token or a list of tokens (osmnx
merges tags of simplified edges into lists). -/
inductive TagVal where
  | str (s : String)
  | lst (l : List String)
deriving DecidableEq

/-- An edge's tag mapping, restricted to the only key the classifier
reads: the value of `"highway"`, absent when the key is missing. -/
abbrev EdgeTags : Type := Option TagVal

/-- The tag normalization both classifier loops perform (lines 111-113
and 135-137): `data.get("highway", "")` gives `""` when the key is
absent, and a list value is replaced by its first element.  Python
`highway[0]` raises `IndexError` on an empty list, modelled as `none`. -/
def normalize_highway : EdgeTags → Option String
  | none => some ""
  | some (.str s) => some s
  | some (.lst []) => none
  | some (.lst (s :: _)) => some s

/-- The per-edge color chain of `get_edge_colors_by_type`
(lines 115-126) on the normalized highway token: `theme[...]` raises
`KeyError` when the role is absent, modelled by keeping the `Option`
of the dictionary lookup. -/
def edge_color_chain (theme : ThemeDict) (highway : String) :
    Option String :=
  if highway = "motorway" ∨ highway = "motorway_link" then
    theme "road_motorway"
  else if highway = "trunk" ∨ highway = "trunk_link" ∨
      highway = "primary" ∨ highway = "primary_link" then
    theme "road_primary"
  else if highway = "secondary" ∨ highway = "secondary_link" then
    theme "road_secondary"
  else if highway = "tertiary" ∨ highway = "tertiary_link" then
    theme "road_tertiary"
  else if highway = "residential" ∨ highway = "living_street" then
    theme "road_residential"
  else
    theme "road_default"

/-- The per-edge width chain of `get_edge_widths_by_type`
(lines 139-150) on the normalized highway token. -/
def edge_width_chain (highway : String) : ℚ :=
  if highway = "motorway" ∨ highway = "motorway_link" then 1.2
  else if highway = "trunk" ∨ highway = "trunk_link" ∨
      highway = "primary" ∨ highway = "primary_link" then 1.0
  else if highway = "secondary" ∨ highway = "secondary_link" then 0.8
  else if highway = "tertiary" ∨ highway = "tertiary_link" then 0.6
  else if highway = "residential" ∨ highway = "living_street" then 0.4
  else 0.3

/-- Sequential per-element loop with exception propagation: apply `f`
to each element in order, collecting the results, and fail as soon as
one element raises (the shape of each `for ... in graph.edges` loop
below). -/
def traverse_list {α β : Type} (f : α → Option β) : List α → Option (List β)
  | [] => some []
  | a :: t => do
    let b ← f a
    let bs ← traverse_list f t
    pure (b :: bs)

/-- A street graph, reduced to what the two per-edge loops consume: the
ordered list of each edge's tag mapping (`graph.edges(data=True)`). -/
abbrev StreetGraph : Type := List EdgeTags

/-- `get_edge_colors_by_type` (lines 107-128): for each edge in order,
normalize the highway tag and append the color that the if-chain picks
from the theme.  The whole loop is `none` when an edge raises. -/
def get_edge_colors_by_type (graph : StreetGraph) (theme : ThemeDict) :
    Option (List String) :=
  traverse_list (fun tags => do
    let highway ← normalize_highway tags
    edge_color_chain theme highway) graph

/-- `get_edge_widths_by_type` (lines 131-152): for each edge in order,
normalize the highway tag and append the width the if-chain picks. -/
def get_edge_widths_by_type (graph : StreetGraph) : Option (List ℚ) :=
  traverse_list (fun tags =>
    (normalize_highway tags).map edge_width_chain) graph

/-- The road classes of the specification's `RoadClass` enum (§3). -/
inductive RoadClass where
  | Motorway | Primary | Secondary | Tertiary | Residential | Default
deriving DecidableEq

/-- Modelled from the spec: `classify_edge`'s classification table
(§4.2), on the normalized highway token. -/
def classify_edge (highway : String) : RoadClass :=
  if highway ∈ ["motorway", "motorway_link"] then .Motorway
  else if highway ∈ ["trunk", "trunk_link", "primary", "primary_link"]
    then .Primary
  else if highway ∈ ["secondary", "secondary_link"] then .Secondary
  else if highway ∈ ["tertiary", "tertiary_link"] then .Tertiary
  else if highway ∈ ["residential", "living_street"] then .Residential
  else .Default

/-- Modelled from the spec: the single theme color role of each road
class (§3). -/
def road_color_role : RoadClass → String
  | .Motorway => "road_motorway"
  | .Primary => "road_primary"
  | .Secondary => "road_secondary"
  | .Tertiary => "road_tertiary"
  | .Residential => "road_residential"
  | .Default => "road_default"

/-- Modelled from the spec: the stroke-width constant of each road
class (§3: 1.2, 1.0, 0.8, 0.6, 0.4, 0.3). -/
def road_width : RoadClass → ℚ
  | .Motorway => 1.2
  | .Primary => 1.0
  | .Secondary => 0.8
  | .Tertiary => 0.6
  | .Residential => 0.4
  | .Default => 0.3

/-! ### Caption layer -/

/-- Python `f"\x7babs(x):.2f\x7d"` for the non-negative coordinate
magnitudes: round to the nearest hundredth and print with exactly two
fractional digits.  CPython rounds the double half-to-even; on values
that are not exact ties (every value this pipeline formats) that is
rounding to nearest, here `⌊q * 100 + 1/2⌋`. -/
def format_2f (q : ℚ) : String :=
  toString ((⌊q * 100 + 1 / 2⌋).toNat / 100) ++ "." ++
    (if (⌊q * 100 + 1 / 2⌋).toNat % 100 < 10
      then "0" ++ toString ((⌊q * 100 + 1 / 2⌋).toNat % 100)
      else toString ((⌊q * 100 + 1 / 2⌋).toNat % 100))

/-- The coordinate caption (line 335): magnitude of each coordinate to
two decimals, hemisphere letter by sign (`>= 0` gives N/E). -/
def coord_text (lat lon : ℚ) : String :=
  format_2f |lat| ++ "°" ++ (if lat ≥ 0 then "N" else "S") ++ " / " ++
    format_2f |lon| ++ "°" ++ (if lon ≥ 0 then "E" else "W")

/-- Python `str.upper()`: uppercase the string character by
character. -/
def py_upper (s : String) : String := ⟨s.data.map Char.toUpper⟩

/-- The city caption string (line 300): Python `"  ".join(city.upper())`
joins the characters of the uppercased city name with a two-space
separator. -/
def city_text (city : String) : String :=
  String.intercalate "  " ((py_upper city).toList.map String.singleton)

/-- One `ax.text` call: position in normalized axes coordinates, the
string, and the styling arguments the source passes. -/
structure TextOp where
  x : ℚ
  y : ℚ
  text : String
  fontsize : ℚ
  fontweight : Option String
  color : String
  ha : String
  va : String
  alpha : Option ℚ
  zorder : ℕ
deriving DecidableEq

/-- The four `ax.text` calls of the caption layer (lines 300-359), in
source order: city, country, coordinates, attribution.  `text_color` is
the value of `theme["text"]` that the caller passes to every call; the
decorative divider line (lines 314-320) is an `ax.plot`, not a text
op. -/
def caption_ops (text_color : String) (city country : String)
    (lat lon : ℚ) : List TextOp :=
  [{ x := 0.5, y := 0.14, text := city_text city, fontsize := 28,
     fontweight := some "bold", color := text_color, ha := "center",
     va := "center", alpha := none, zorder := 11 },
   { x := 0.5, y := 0.10, text := py_upper country, fontsize := 12,
     fontweight := none, color := text_color, ha := "center",
     va := "center", alpha := none, zorder := 11 },
   { x := 0.5, y := 0.07, text := coord_text lat lon, fontsize := 10,
     fontweight := none, color := text_color, ha := "center",
     va := "center", alpha := some 0.7, zorder := 11 },
   { x := 0.98, y := 0.02, text := "© OpenStreetMap", fontsize := 6,
     fontweight := none, color := text_color, ha := "right",
     va := "bottom", alpha := some 0.5, zorder := 11 }]

/-! ### Fetch pipeline of `create_poster` -/

/-- `get_coordinates` (lines 96-104): the geocoder's reply is `none`
when Nominatim finds no match, in which case the function raises
`ValueError` with the formatted message; otherwise it returns the
latitude/longitude pair. -/
def get_coordinates (geocode_result : Option (ℚ × ℚ))
    (city country : String) : Except String (ℚ × ℚ) :=
  match geocode_result with
  | none =>
      .error ("Could not find coordinates for " ++ city ++ ", " ++ country)
  | some loc => .ok loc

/-- A `try ... except Exception: x = None` block around a provider
call. -/
def swallow {α : Type} : Except String α → Option α
  | .ok a => some a
  | .error _ => none

/-- What the fetch phase of `create_poster` (lines 227-263) hands to the
compositing phase: the geocoded point, the required street graph, and
the optional water and park collections (`none` when their fetch was
swallowed). -/
structure FetchedLayers where
  point : ℚ × ℚ
  graph : StreetGraph
  water : Option (List ℕ)
  parks : Option (List ℕ)
deriving DecidableEq

/-- The fetch phase of `create_poster` (lines 227-263): geocode (raises
on no match), fetch the street graph (any raise propagates), then fetch
water and parks each inside `try/except` that turns any failure into
`None`. -/
def create_poster_fetch (geocode_result : Option (ℚ × ℚ))
    (city country : String)
    (fetch_graph : ℚ × ℚ → Except String StreetGraph)
    (fetch_water fetch_parks : ℚ × ℚ → Except String (List ℕ)) :
    Except String FetchedLayers := do
  let point ← get_coordinates geocode_result city country
  let graph ← fetch_graph point
  let water := swallow (fetch_water point)
  let parks := swallow (fetch_parks point)
  pure ⟨point, graph, water, parks⟩

/-! ### Exporter -/

/-- The mutable figure state `export_pdf` manipulates: an opaque content
identifier, the physical size in inches, the face color, and whether
`subplots_adjust(left=0, right=1, top=1, bottom=0)` has been applied. -/
structure FigState where
  content : ℕ
  width_in : ℚ
  height_in : ℚ
  facecolor : String
  margins_set : Bool
deriving DecidableEq

/-- 25.4 mm per inch (line 602). -/
def mm_per_inch : ℚ := 25.4

/-- The corner positions of the trim box that `_add_crop_marks`
computes (lines 679-687): a 10 mm outer offset plus the bleed, at the
four corners of the `width_mm × height_mm` trim rectangle. -/
def crop_mark_corners (width_mm height_mm bleed_mm : ℚ) :
    List (ℚ × ℚ) :=
  let offset : ℚ := 10
  [(offset + bleed_mm, offset + bleed_mm),
   (offset + bleed_mm + width_mm, offset + bleed_mm),
   (offset + bleed_mm, offset + bleed_mm + height_mm),
   (offset + bleed_mm + width_mm, offset + bleed_mm + height_mm)]

/-- `_add_crop_marks` (lines 660-709): the function draws a separate
crop-marks figure (corners as in `crop_mark_corners`), then closes that
figure and returns the original PDF bytes unchanged — lines 705-709
state that proper overlay would need a PDF manipulation library and
return the input as a placeholder. -/
def _add_crop_marks (pdf_bytes : List ℕ) (_width_mm _height_mm : ℚ)
    (_bleed_mm : ℚ) : List ℕ :=
  pdf_bytes

/-- The figure mutation of `export_pdf` (lines 601-609): resize to the
resolved page size converted to inches and stretch the subplot region
to the full page. -/
def resize_for_export (fig : FigState) (paper_size o : String)
    (print_ready : Bool) : FigState :=
  let dims := resolve_dimensions paper_size o BLEED_MM print_ready
  { fig with
      width_in := dims.1 / mm_per_inch,
      height_in := dims.2 / mm_per_inch,
      margins_set := true }

/-- The byte production of `export_pdf` (lines 586-645): resolve the
page dimensions, resize the figure, serialize it to PDF (`fig.savefig`,
modelled by the serializer argument `render_pdf`), and on the
print-ready path pass the bytes through `_add_crop_marks` with the trim
size (page minus twice the bleed) and `BLEED_MM`. -/
def export_pdf_bytes (render_pdf : FigState → List ℕ) (fig : FigState)
    (paper_size o : String) (print_ready : Bool) : List ℕ :=
  let dims := resolve_dimensions paper_size o BLEED_MM print_ready
  let fig := resize_for_export fig paper_size o print_ready
  let bytes := render_pdf fig
  if print_ready then
    _add_crop_marks bytes (dims.1 - 2 * BLEED_MM)
      (dims.2 - 2 * BLEED_MM) BLEED_MM
  else
    bytes

/-- The PDF output filename (lines 650-652): lowercased city with
spaces replaced by underscores, theme, paper size, the first four
characters of the orientation, and a `_printready` suffix when
applicable.  No timestamp is embedded. -/
def pdf_filename (city theme_name paper_size o : String)
    (print_ready : Bool) : String :=
  let orientation_str := o.take 4
  let suffix := if print_ready then "_printready" else ""
  (city.toLower.replace " " "_") ++ "_" ++ theme_name ++ "_" ++
    paper_size ++ "_" ++ orientation_str ++ suffix ++ ".pdf"

/-- The PNG output filename of `create_poster` (lines 366-367):
lowercased city with spaces replaced by underscores, theme, and the
`datetime.now` timestamp. -/
def png_filename (city theme_name ts : String) : String :=
  (city.toLower.replace " " "_") ++ "_" ++ theme_name ++ "_" ++
    ts ++ ".png"

/-- One `export_pdf` invocation observed at wall-clock reading `now`:
the filename it would write and the bytes it returns.  `export_pdf`
reads no clock, so `now` is threaded but unused. -/
def export_pdf_run (render_pdf : FigState → List ℕ) (fig : FigState)
    (city theme_name paper_size o : String) (print_ready : Bool)
    (_now : String) : String × List ℕ :=
  (pdf_filename city theme_name paper_size o print_ready,
   export_pdf_bytes render_pdf fig paper_size o print_ready)

/-- The save step of `create_poster` (lines 365-377) observed at
wall-clock reading `now`: the timestamped filename and the PNG bytes
`fig.savefig` produces from the figure and the DPI (serializer modelled
by `render_png`). -/
def create_poster_save (render_png : FigState → ℕ → List ℕ)
    (fig : FigState) (city theme_name : String) (dpi : ℕ)
    (now : String) : String × List ℕ :=
  (png_filename city theme_name now, render_png fig dpi)

/-- The per-edge road classes of a graph, under the same normalization
(and failure) as the two loops: the common classification both loops
evaluate edge by edge. -/
def classify_edges (graph : StreetGraph) : Option (List RoadClass) :=
  traverse_list (fun tags => (normalize_highway tags).map classify_edge) graph

/-- The twelve highway tokens the classification table recognizes. -/
def classified_tokens : List String :=
  ["motorway", "motorway_link", "trunk", "trunk_link", "primary",
   "primary_link", "secondary", "secondary_link", "tertiary",
   "tertiary_link", "residential", "living_street"]

/-! ## Helper lemmas -/

/-- The inline color chain picks exactly the color role of the edge's
road class. -/
lemma edge_color_chain_eq (theme : ThemeDict) (hw : String) :
    edge_color_chain theme hw = theme (road_color_role (classify_edge hw)) := by
  simp only [edge_color_chain, classify_edge, List.mem_cons,
    List.mem_singleton, List.not_mem_nil, or_false]
  split_ifs <;> rfl

/-- The inline width chain picks exactly the width constant of the
edge's road class. -/
lemma edge_width_chain_eq (hw : String) :
    edge_width_chain hw = road_width (classify_edge hw) := by
  simp only [edge_width_chain, classify_edge, List.mem_cons,
    List.mem_singleton, List.not_mem_nil, or_false]
  split_ifs <;> rfl

/-- Every role of `DEFAULT_THEME` is populated. -/
lemma DEFAULT_THEME_isSome {role : String}
    (h : role ∈ default_theme_roles) : (DEFAULT_THEME role).isSome := by
  fin_cases h <;> rfl

/-- Unfolding equation of `traverse_list` on a cons cell. -/
lemma traverse_list_cons {α β : Type} (f : α → Option β) (a : α)
    (t : List α) :
    traverse_list f (a :: t) =
      (f a).bind fun b =>
        (traverse_list f t).bind fun bs => some (b :: bs) := rfl

/-- A successful traversal produces a list of the same length. -/
lemma traverse_length {α β : Type} (f : α → Option β) :
    ∀ (l : List α) (l' : List β), traverse_list f l = some l' →
      l'.length = l.length := by
  intro l
  induction l with
  | nil =>
      intro l' h
      simp only [traverse_list, Option.some.injEq] at h
      simp [← h]
  | cons a t ih =>
      intro l' h
      rw [traverse_list_cons] at h
      cases hfa : f a with
      | none => simp [hfa] at h
      | some b =>
          cases hft : traverse_list f t with
          | none => simp [hfa, hft] at h
          | some bs =>
              simp only [hfa, hft, Option.some_bind,
                Option.some.injEq] at h
              simp [← h, ih bs hft]

/-- A successful traversal maps each element to the entry at the same
index. -/
lemma traverse_get {α β : Type} (f : α → Option β) :
    ∀ (l : List α) (l' : List β), traverse_list f l = some l' →
      ∀ (i : ℕ) (h : i < l.length) (h' : i < l'.length),
        f (l.get ⟨i, h⟩) = some (l'.get ⟨i, h'⟩) := by
  intro l
  induction l with
  | nil => intro l' _ i h; exact absurd h (by simp)
  | cons a t ih =>
      intro l' h i hi hi'
      rw [traverse_list_cons] at h
      cases hfa : f a with
      | none => simp [hfa] at h
      | some b =>
          cases hft : traverse_list f t with
          | none => simp [hfa, hft] at h
          | some bs =>
              simp only [hfa, hft, Option.some_bind,
                Option.some.injEq] at h
              subst h
              cases i with
              | zero => simpa using hfa
              | succ j =>
                  exact ih bs hft j (Nat.lt_of_succ_lt_succ hi)
                    (Nat.lt_of_succ_lt_succ hi')

/-- The widths loop computes the classification list pointwise mapped
through the width table. -/
lemma get_edge_widths_eq (g : StreetGraph) :
    get_edge_widths_by_type g =
      (classify_edges g).map (List.map road_width) := by
  induction g with
  | nil => rfl
  | cons a t ih =>
      simp only [get_edge_widths_by_type, classify_edges,
        traverse_list_cons] at *
      cases hna : normalize_highway a with
      | none => simp [hna]
      | some s =>
          cases hft : traverse_list
              (fun tags => (normalize_highway tags).map classify_edge)
              t with
          | none =>
              simp only [hft, Option.map_none] at ih
              simp [hna, hft, ih]
          | some ks =>
              simp only [hft, Option.map_some] at ih
              simp [hna, hft, ih, edge_width_chain_eq]

/-- The colors loop computes the classification list pointwise looked
up through the theme's color roles. -/
lemma get_edge_colors_eq (g : StreetGraph) (theme : ThemeDict) :
    get_edge_colors_by_type g theme =
      (classify_edges g).bind fun ks =>
        traverse_list (fun k => theme (road_color_role k)) ks := by
  induction g with
  | nil => rfl
  | cons a t ih =>
      simp only [get_edge_colors_by_type, classify_edges,
        traverse_list_cons] at *
      cases hna : normalize_highway a with
      | none => simp [hna]
      | some s =>
          simp only [hna, Option.bind_eq_bind', Option.some_bind,
            Option.map_some'] at ih ⊢
          rw [edge_color_chain_eq, ih]
          cases hft : traverse_list
              (fun tags => (normalize_highway tags).map classify_edge)
              t with
          | none =>
              simp only [hft, Option.none_bind]
              cases theme (road_color_role (classify_edge s)) <;> simp
          | some ks =>
              simp only [hft, Option.some_bind, traverse_list_cons]

/-! ## Claims -/

/-- C1: For every paper size in \x7bA3,A4,A5\x7d, orientation and
bleed, the PDF export computes page dimensions by taking the base
(width,height) in mm, swapping them for landscape, collapsing both to
the minimum for square, and adding 2×bleed to each axis exactly when
print-ready; in particular A4 portrait with bleed 3 resolves to
(216, 303) when print-ready and (210, 297) otherwise. -/
theorem C1_resolve_dimensions :
    (∀ (ps o : String) (bleed : ℚ) (pr : Bool),
      ps ∈ (["A3", "A4", "A5"] : List String) →
        resolve_dimensions ps o bleed pr =
          resolve_dimensions_spec ps o bleed pr) ∧
    resolve_dimensions "A4" "portrait" 3 true = (216, 303) ∧
    resolve_dimensions "A4" "portrait" 3 false = (210, 297) :=
  ⟨fun _ _ _ _ _ => rfl,
    by simp +decide [resolve_dimensions, PAPER_SIZES]; norm_num,
    by simp +decide [resolve_dimensions, PAPER_SIZES]⟩

/-- Witness for C1 at A3 landscape with bleed 5. -/
theorem C1_resolve_dimensions_witness :
    ("A3" : String) ∈ (["A3", "A4", "A5"] : List String) ∧
    resolve_dimensions "A3" "landscape" 5 true =
      resolve_dimensions_spec "A3" "landscape" 5 true :=
  ⟨by decide, C1_resolve_dimensions.1 "A3" "landscape" 5 true (by decide)⟩

/-- C2: For every paper size and orientation, the aspect-ratio helper
returns width/height after the orientation adjustment (the ratio of the
resolved page dimensions without bleed), defaulting to A4 dimensions on
an unknown paper name; in particular A4 landscape gives 297/210, A4
portrait 210/297, and A4 square 1. -/
theorem C2_aspect_ratio :
    (∀ (ps o : String),
      get_aspect_ratio ps o =
        (resolve_dimensions ps o 0 false).1 /
          (resolve_dimensions ps o 0 false).2) ∧
    (∀ (ps o : String), PAPER_SIZES ps = none →
      get_aspect_ratio ps o = get_aspect_ratio "A4" o) ∧
    get_aspect_ratio "A4" "landscape" = 297 / 210 ∧
    get_aspect_ratio "A4" "portrait" = 210 / 297 ∧
    get_aspect_ratio "A4" "square" = 1 := by
  refine ⟨fun ps o => rfl, fun ps o h => ?_,
    by simp +decide [ get_aspect_ratio, PAPER_SIZES],
    by simp +decide [ get_aspect_ratio, PAPER_SIZES],
    by simp +decide [ get_aspect_ratio, PAPER_SIZES]⟩
  have hd : (PAPER_SIZES ps).getD (210, 297) =
      (PAPER_SIZES "A4").getD (210, 297) := by
    rw [h]; rfl
  simp only [ get_aspect_ratio, hd]

/-- Witness for C2 at the unknown paper name "Letter". -/
theorem C2_aspect_ratio_witness :
    PAPER_SIZES "Letter" = none ∧
    get_aspect_ratio "Letter" "portrait" =
      get_aspect_ratio "A4" "portrait" :=
  ⟨by decide, C2_aspect_ratio.2.1 "Letter" "portrait" (by decide)⟩

/-- C3: For every input PDF byte string and every trim width, trim
height and bleed amount, the crop-mark overlay returns the input bytes
unmodified, so the print-ready export's bytes are exactly what the
serializer produced for the resized figure — no crop-mark geometry is
merged. -/
theorem C3_crop_marks_noop :
    (∀ (pdf : List ℕ) (w h b : ℚ), _add_crop_marks pdf w h b = pdf) ∧
    (∀ (render_pdf : FigState → List ℕ) (fig : FigState)
        (ps o : String) (pr : Bool),
      export_pdf_bytes render_pdf fig ps o pr =
        render_pdf (resize_for_export fig ps o pr)) := by
  refine ⟨fun _ _ _ _ => rfl, fun render fig ps o pr => ?_⟩
  cases pr <;> rfl

/-- C4: Resolving a theme identifier absent from the store returns the
built-in default unchanged and never fails; for a stored theme, roles
present in the stored definition override the default and absent roles
keep the default's value, so every role of the result is defined. -/
theorem C4_load_theme_resolution :
    (∀ (store : ThemeStore) (name : String), store name = none →
      load_theme store name = DEFAULT_THEME) ∧
    (∀ (store : ThemeStore) (name : String) (t : ThemeDict)
        (role v : String), store name = some t → t role = some v →
      load_theme store name role = some v) ∧
    (∀ (store : ThemeStore) (name : String) (t : ThemeDict)
        (role : String), store name = some t → t role = none →
      load_theme store name role = DEFAULT_THEME role) ∧
    (∀ (store : ThemeStore) (name role : String),
      role ∈ default_theme_roles →
      (load_theme store name role).isSome) := by
  refine ⟨?_, ?_, ?_, ?_⟩
  · intro store name h
    simp [load_theme, h]
  · intro store name t role v h1 h2
    simp [load_theme, h1, h2]
  · intro store name t role h1 h2
    simp [load_theme, h1, h2]
  · intro store name role hr
    cases hs : store name with
    | none =>
        simp only [load_theme, hs]
        exact DEFAULT_THEME_isSome hr
    | some t =>
        simp only [load_theme, hs]
        cases ht : t role with
        | none => simpa [ht] using DEFAULT_THEME_isSome hr
        | some v => simp [ht]

/-- Witness for C4: an empty store and a one-role store. -/
theorem C4_load_theme_resolution_witness :
    load_theme (fun _ => none) "missing" = DEFAULT_THEME ∧
    load_theme
      (fun n => if n = "dark"
        then some (fun r => if r = "bg" then some "#101010" else none)
        else none) "dark" "bg" = some "#101010" ∧
    load_theme
      (fun n => if n = "dark"
        then some (fun r => if r = "bg" then some "#101010" else none)
        else none) "dark" "text" = DEFAULT_THEME "text" ∧
    (load_theme (fun _ => none) "missing" "water").isSome :=
  ⟨C4_load_theme_resolution.1 _ _ rfl,
    C4_load_theme_resolution.2.1 _ _ _ _ _ rfl rfl,
    C4_load_theme_resolution.2.2.1 _ _ _ _ rfl rfl,
    C4_load_theme_resolution.2.2.2 _ _ _ (by decide)⟩

/-- C5: For every edge tag mapping, classification takes the highway
value (a list's first element when it is a list, the empty string when
absent) and maps it by exact case-sensitive match through the table
Motorway/Primary/Secondary/Tertiary/Residential with any other value
giving Default, each class styled with its single theme color role and
its width constant (1.2, 1.0, 0.8, 0.6, 0.4, 0.3). -/
theorem C5_classification :
    (∀ (theme : ThemeDict) (hw : String),
      edge_color_chain theme hw =
        theme (road_color_role (classify_edge hw))) ∧
    (∀ s : String, s ∉ classified_tokens →
      classify_edge s = RoadClass.Default) ∧
    (∀ hw : String,
      edge_width_chain hw = road_width (classify_edge hw)) ∧
    (∀ (s : String) (rest : List String),
      normalize_highway (some (.lst (s :: rest))) = some s) ∧
    (∀ s : String, normalize_highway (some (.str s)) = some s) ∧
    normalize_highway none = some "" ∧
    classify_edge "" = RoadClass.Default ∧
    classify_edge "motorway" = RoadClass.Motorway ∧
    classify_edge "motorway_link" = RoadClass.Motorway ∧
    classify_edge "trunk" = RoadClass.Primary ∧
    classify_edge "trunk_link" = RoadClass.Primary ∧
    classify_edge "primary" = RoadClass.Primary ∧
    classify_edge "primary_link" = RoadClass.Primary ∧
    classify_edge "secondary" = RoadClass.Secondary ∧
    classify_edge "secondary_link" = RoadClass.Secondary ∧
    classify_edge "tertiary" = RoadClass.Tertiary ∧
    classify_edge "tertiary_link" = RoadClass.Tertiary ∧
    classify_edge "residential" = RoadClass.Residential ∧
    classify_edge "living_street" = RoadClass.Residential ∧
    road_width RoadClass.Motorway = 1.2 ∧
    road_width RoadClass.Primary = 1.0 ∧
    road_width RoadClass.Secondary = 0.8 ∧
    road_width RoadClass.Tertiary = 0.6 ∧
    road_width RoadClass.Residential = 0.4 ∧
    road_width RoadClass.Default = 0.3 := by
  refine ⟨edge_color_chain_eq, ?_, edge_width_chain_eq,
    fun _ _ => rfl, fun _ => rfl, rfl, by decide, by decide, by decide,
    by decide, by decide, by decide, by decide, by decide, by decide,
    by decide, by decide, by decide, by decide, rfl, rfl, rfl, rfl,
    rfl, rfl⟩
  intro s h
  simp only [classified_tokens, List.mem_cons, List.not_mem_nil,
    or_false, not_or] at h
  obtain ⟨h1, h2, h3, h4, h5, h6, h7, h8, h9, h10, h11, h12⟩ := h
  simp [classify_edge, h1, h2, h3, h4, h5, h6, h7, h8, h9, h10, h11,
    h12]

/-- Witness for C5 at the unclassified token "footway". -/
theorem C5_classification_witness :
    ("footway" : String) ∉ classified_tokens ∧
    classify_edge "footway" = RoadClass.Default :=
  ⟨by decide, C5_classification.2.1 "footway" (by decide)⟩

/-- Unfolding of `Except` bind on a success. -/
lemma except_ok_bind {α β : Type} (a : α)
    (f : α → Except String β) :
    (Except.ok a : Except String α) >>= f = f a := rfl

/-- Unfolding of `Except` bind on an error. -/
lemma except_error_bind {α β : Type} (e : String)
    (f : α → Except String β) :
    (Except.error e : Except String α) >>= f = Except.error e := rfl

/-- C6: A geocoding failure and a street-graph fetch failure propagate
as the terminal outcome of the request, while a water or parks fetch
failure is swallowed (the layer becomes `None`) and the request still
succeeds. -/
theorem C6_failure_propagation :
    (∀ (city country : String)
        (fg : ℚ × ℚ → Except String StreetGraph)
        (fw fp : ℚ × ℚ → Except String (List ℕ)),
      create_poster_fetch none city country fg fw fp =
        .error ("Could not find coordinates for " ++ city ++ ", " ++
          country)) ∧
    (∀ (pt : ℚ × ℚ) (city country : String)
        (fg : ℚ × ℚ → Except String StreetGraph)
        (fw fp : ℚ × ℚ → Except String (List ℕ)) (e : String),
      fg pt = .error e →
      create_poster_fetch (some pt) city country fg fw fp =
        .error e) ∧
    (∀ (pt : ℚ × ℚ) (city country : String)
        (fg : ℚ × ℚ → Except String StreetGraph)
        (fw fp : ℚ × ℚ → Except String (List ℕ)) (g : StreetGraph),
      fg pt = .ok g →
      create_poster_fetch (some pt) city country fg fw fp =
        .ok ⟨pt, g, swallow (fw pt), swallow (fp pt)⟩) ∧
    (∀ e : String, swallow (α := List ℕ) (.error e) = none) ∧
    (∀ w : List ℕ, swallow (.ok w) = some w) := by
  refine ⟨fun _ _ _ _ _ => rfl, ?_, ?_, fun _ => rfl, fun _ => rfl⟩
  · intro pt city country fg fw fp e h
    simp only [create_poster_fetch, get_coordinates, except_ok_bind,
      h, except_error_bind]
  · intro pt city country fg fw fp g h
    simp only [create_poster_fetch, get_coordinates, except_ok_bind,
      h]
    rfl

/-- Witness for C6: a failing graph fetch is terminal, failing optional
fetches only drop their layer. -/
theorem C6_failure_propagation_witness :
    create_poster_fetch (some (1, 2)) "X" "Y"
      (fun _ => .error "graph down") (fun _ => .ok [])
      (fun _ => .ok []) = .error "graph down" ∧
    create_poster_fetch (some (1, 2)) "X" "Y" (fun _ => .ok [none])
      (fun _ => .error "water down") (fun _ => .ok [7]) =
      .ok ⟨(1, 2), [none], none, some [7]⟩ :=
  ⟨C6_failure_propagation.2.1 (1, 2) "X" "Y" _ _ _ "graph down" rfl,
    C6_failure_propagation.2.2.1 (1, 2) "X" "Y" _ _ _ [none] rfl⟩

/-- C8: Exporting the same canvas with the same parameters at two
different wall-clock readings yields byte-identical output; the clock
reaches only the timestamp segment of the raster filename. -/
theorem C8_export_deterministic :
    (∀ (render_pdf : FigState → List ℕ) (fig : FigState)
        (city theme_name ps o : String) (pr : Bool) (t1 t2 : String),
      export_pdf_run render_pdf fig city theme_name ps o pr t1 =
        export_pdf_run render_pdf fig city theme_name ps o pr t2) ∧
    (∀ (render_png : FigState → ℕ → List ℕ) (fig : FigState)
        (city theme_name : String) (dpi : ℕ) (t1 t2 : String),
      (create_poster_save render_png fig city theme_name dpi t1).2 =
        (create_poster_save render_png fig city theme_name dpi t2).2) ∧
    (∀ city theme_name t : String,
      png_filename city theme_name t =
        (city.toLower.replace " " "_") ++ "_" ++ theme_name ++ "_" ++
          t ++ ".png") :=
  ⟨fun _ _ _ _ _ _ _ _ _ => rfl, fun _ _ _ _ _ _ _ => rfl,
    fun _ _ _ => rfl⟩

/-- C7: For every latitude and longitude, the coordinate caption is
the magnitude of each coordinate to two decimals with the hemisphere
letter chosen by sign (N/E when the coordinate is ≥ 0, S/W otherwise);
in particular (48.8566, 2.3522) gives "48.86°N / 2.35°E" and
(-33.87, -151.21) gives "33.87°S / 151.21°W". -/
theorem C7_coord_text :
    (∀ lat lon : ℚ,
      coord_text lat lon =
        format_2f |lat| ++ "°" ++ (if lat ≥ 0 then "N" else "S") ++
          " / " ++ format_2f |lon| ++ "°" ++
          (if lon ≥ 0 then "E" else "W")) ∧
    coord_text 48.8566 2.3522 = "48.86°N / 2.35°E" ∧
    coord_text (-33.87) (-151.21) = "33.87°S / 151.21°W" := by
  refine ⟨fun _ _ => rfl, ?_, ?_⟩
  · have hlat : |(48.8566 : ℚ)| * 100 + 1 / 2 = 4886.16 := by
      rw [abs_of_nonneg (by norm_num : (0 : ℚ) ≤ 48.8566)]; norm_num
    have hlon : |(2.3522 : ℚ)| * 100 + 1 / 2 = 235.72 := by
      rw [abs_of_nonneg (by norm_num : (0 : ℚ) ≤ 2.3522)]; norm_num
    have flat : ⌊(4886.16 : ℚ)⌋ = 4886 := by norm_num
    have flon : ⌊(235.72 : ℚ)⌋ = 235 := by norm_num
    simp only [coord_text, format_2f, hlat, hlon, flat, flon]
    rw [if_pos (by norm_num : (48.8566 : ℚ) ≥ 0),
      if_pos (by norm_num : (2.3522 : ℚ) ≥ 0)]
    rfl
  · have hlat : |(-33.87 : ℚ)| * 100 + 1 / 2 = 3387.5 := by
      rw [abs_of_nonpos (by norm_num : (-33.87 : ℚ) ≤ 0)]; norm_num
    have hlon : |(-151.21 : ℚ)| * 100 + 1 / 2 = 15121.5 := by
      rw [abs_of_nonpos (by norm_num : (-151.21 : ℚ) ≤ 0)]; norm_num
    have flat : ⌊(3387.5 : ℚ)⌋ = 3387 := by norm_num
    have flon : ⌊(15121.5 : ℚ)⌋ = 15121 := by norm_num
    simp only [coord_text, format_2f, hlat, hlon, flat, flon]
    rw [if_neg (by norm_num : ¬(-33.87 : ℚ) ≥ 0),
      if_neg (by norm_num : ¬(-151.21 : ℚ) ≥ 0)]
    rfl

/-- C9: The caption layer's first text op renders the city name
uppercased with its characters joined by a (two-space, all-blank)
separator, centered horizontally (x = 0.5, ha = center) at normalized
y = 0.14 in bold. -/
theorem C9_city_caption :
    (∀ (text_color city country : String) (lat lon : ℚ),
      (caption_ops text_color city country lat lon).head? = some
        { x := 0.5, y := 0.14,
          text := String.intercalate "  "
            ((py_upper city).toList.map String.singleton),
          fontsize := 28, fontweight := some "bold",
          color := text_color, ha := "center", va := "center",
          alpha := none, zorder := 11 }) ∧
    (("  " : String).toList.all fun c => c = ' ') = true ∧
    city_text "Paris" = "P  A  R  I  S" := by
  refine ⟨fun _ _ _ _ _ => rfl, by decide, by decide⟩

/-- C10: When the per-edge color and width loops both succeed, they
return lists exactly as long as the edge list, and at every index the
color and the width are derived from the same road class of the same
edge: the width is that class's constant and the color is the theme
value of that class's color role. -/
theorem C10_edge_lists_aligned (g : StreetGraph) (theme : ThemeDict)
    (cs : List String) (ws : List ℚ)
    (hc : get_edge_colors_by_type g theme = some cs)
    (hw : get_edge_widths_by_type g = some ws) :
    cs.length = g.length ∧ ws.length = g.length ∧
    ∃ ks : List RoadClass, classify_edges g = some ks ∧
      ks.length = g.length ∧ ws = ks.map road_width ∧
      ∀ (i : ℕ) (hik : i < ks.length) (hic : i < cs.length),
        theme (road_color_role (ks.get ⟨i, hik⟩)) =
          some (cs.get ⟨i, hic⟩) := by
  rw [get_edge_colors_eq] at hc
  rw [get_edge_widths_eq] at hw
  cases hk : classify_edges g with
  | none =>
      rw [hk] at hc
      simp at hc
  | some ks =>
      rw [hk] at hc hw
      simp only [Option.some_bind, Option.map_some',
        Option.some.injEq] at hc hw
      have hklen : ks.length = g.length := traverse_length _ g ks hk
      have hcslen : cs.length = ks.length := traverse_length _ ks cs hc
      refine ⟨by rw [hcslen, hklen], by rw [← hw]; simp [hklen], ks,
        rfl, hklen, hw.symm, ?_⟩
      intro i hik hic
      exact traverse_get _ ks cs hc i hik hic

/-- Witness for C10 on a two-edge graph (a motorway edge and an edge
with no highway tag) with the default theme. -/
theorem C10_edge_lists_aligned_witness :
    (["#0A0A0A", "#3A3A3A"] : List String).length =
      ([some (TagVal.str "motorway"), none] : StreetGraph).length ∧
    ([(1.2 : ℚ), 0.3]).length =
      ([some (TagVal.str "motorway"), none] : StreetGraph).length ∧
    ∃ ks : List RoadClass,
      classify_edges [some (TagVal.str "motorway"), none] = some ks ∧
      ks.length =
        ([some (TagVal.str "motorway"), none] : StreetGraph).length ∧
      [(1.2 : ℚ), 0.3] = ks.map road_width ∧
      ∀ (i : ℕ) (hik : i < ks.length)
        (hic : i < (["#0A0A0A", "#3A3A3A"] : List String).length),
        DEFAULT_THEME (road_color_role (ks.get ⟨i, hik⟩)) =
          some ((["#0A0A0A", "#3A3A3A"] : List String).get ⟨i, hic⟩) :=
  C10_edge_lists_aligned _ DEFAULT_THEME _ _ rfl rfl

end MapToPoster
